import Mathlib

/-!
Verification development for the "Escape the Secret Island" game
(source files: `entities.py`, `game.py`, `levels.py`, `models.py`, `audio.py`).

Shallow embedding conventions:
* `pygame.Rect` is `Rect` below with integer position/size; `colliderect`
  is `collide` (strict overlap, zero-sized rects never collide).
* Python floats are idealised as exact rationals `ℚ`; `int(...)` and the
  `pygame.Rect` constructor truncate toward zero (`truncQ`).
* `Vec.normalize()` returns an irrational unit vector, so the embedding is
  parameterised by an abstract `norm : ℚ × ℚ → ℚ × ℚ` wherever the source
  normalises a vector whose exact value a claim does not depend on.
  Comparisons of euclidean lengths (`dist <= r`, `path.length() < 10`) are
  embedded by comparing squares, which is exact for nonnegative bounds.
* A `Bullet`'s direction is stored as the raw (un-normalised) aim vector;
  the source normalises it at construction, a positive rescaling.
* `settings.py` is not part of the repository sources; the constants it
  provides are modelled from the spec (see the individual doc comments).
-/

/-- Screen width. Modelled from the spec: `settings.py` (which defines
`WIDTH`) is missing from the repository; the value 1200 is forced by the
level data (`levels.py` builds the Harbor walkable ground as
`Rect(40, 300, 1120, 340)` flush against the `WIDTH - 40` border wall). -/
def WIDTH : Int := 1200

/-- Screen height. Modelled from the spec: `settings.py` (which defines
`HEIGHT`) is missing from the repository; the value 680 is forced by the
level data (Harbor ground bottom `300 + 340` flush against the
`HEIGHT - 40` border wall). -/
def HEIGHT : Int := 680

/-- Maximum stamina. Modelled from the spec: `settings.py` (which defines
`MAX_STAMINA`) is missing from the repository; the HUD renders the stamina
bar as `player.stamina / 100`, so the cap is 100. -/
def MAX_STAMINA : ℚ := 100

/-- Base player speed, from the missing `settings.py`. Modelled from the
spec: no claim depends on its value. -/
def PLAYER_SPEED : ℚ := 4

/-- Sprint multiplier, from the missing `settings.py`. Modelled from the
spec: no claim depends on its value. -/
def SPRINT_MULTIPLIER : ℚ := 3/2

/-- Python `int(...)` applied to a float: truncation toward zero. -/
def truncQ (q : ℚ) : Int := if 0 ≤ q then Int.floor q else -Int.floor (-q)

/-- `pygame.Rect`: integer position and size. -/
structure Rect where
  x : Int
  y : Int
  w : Int
  h : Int
deriving DecidableEq

def Rect.right (r : Rect) : Int := r.x + r.w

def Rect.bottom (r : Rect) : Int := r.y + r.h

def Rect.centerx (r : Rect) : Int := r.x + r.w / 2

def Rect.centery (r : Rect) : Int := r.y + r.h / 2

/-- `pygame.Rect.colliderect`: strict axis-aligned overlap; rects with a
zero width or height never collide. -/
def Collides (a b : Rect) : Prop :=
  a.w ≠ 0 ∧ a.h ≠ 0 ∧ b.w ≠ 0 ∧ b.h ≠ 0 ∧
  a.x < b.x + b.w ∧ a.x + a.w > b.x ∧ a.y < b.y + b.h ∧ a.y + a.h > b.y

instance (a b : Rect) : Decidable (Collides a b) := by
  unfold Collides; infer_instance

def collide (a b : Rect) : Bool := decide (Collides a b)

/-- Setting `rect.center = (cx, cy)` in pygame. -/
def Rect.set_center (r : Rect) (cx cy : Int) : Rect :=
  { r with x := cx - r.w / 2, y := cy - r.h / 2 }

/-- Setting `rect.centery = cy` in pygame. -/
def Rect.set_centery (r : Rect) (cy : Int) : Rect :=
  { r with y := cy - r.h / 2 }

/-- `rect.inflate(dx, dy)`: grow around the center. -/
def Rect.inflate (r : Rect) (dx dy : Int) : Rect :=
  { r with x := r.x - dx / 2, y := r.y - dy / 2, w := r.w + dx, h := r.h + dy }

/-- One step of the X-axis resolution loop of `Character.move_and_collide`
(`entities.py` lines 42-47): if the moved rect overlaps `wall`, clamp
`rect.right = wall.left` when moving right, `rect.left = wall.right` when
moving left. -/
def resolve_x (vx : ℚ) (r wall : Rect) : Rect :=
  if collide r wall then
    if 0 < vx then { r with x := wall.x - r.w }
    else if vx < 0 then { r with x := wall.x + wall.w }
    else r
  else r

/-- One step of the Y-axis resolution loop of `Character.move_and_collide`
(`entities.py` lines 50-55). -/
def resolve_y (vy : ℚ) (r wall : Rect) : Rect :=
  if collide r wall then
    if 0 < vy then { r with y := wall.y - r.h }
    else if vy < 0 then { r with y := wall.y + wall.h }
    else r
  else r

/-- `Character.move_and_collide(obstacles)` (`entities.py` lines 40-55):
apply the X component of the velocity (`rect.x += int(vel.x)`), resolve
against each obstacle in order, then the same for Y. -/
def move_and_collide (r : Rect) (vx vy : ℚ) (obstacles : List Rect) : Rect :=
  let r1 : Rect := { r with x := r.x + truncQ vx }
  let r2 := obstacles.foldl (resolve_x vx) r1
  let r3 : Rect := { r2 with y := r2.y + truncQ vy }
  obstacles.foldl (resolve_y vy) r3

/-- Claim C5, counterexample. The entity starts at (0, 40), size 10 × 10,
and moves diagonally with velocity (6, -28) against the two obstacles
`Rect(0, 25, 30, 10)` and `Rect(0, 12, 30, 4)`: the Y pass clamps its top
to the bottom of the second wall, pushing it back down into the first wall
(already checked earlier in the same pass), so the step ends with the
entity overlapping an obstacle. -/
theorem move_and_collide_corner_counterexample :
    collide
      (move_and_collide ⟨0, 40, 10, 10⟩ 6 (-28) [⟨0, 25, 30, 10⟩, ⟨0, 12, 30, 4⟩])
      ⟨0, 25, 30, 10⟩ = true ∧
    (6 : ℚ) ≠ 0 ∧ (-28 : ℚ) ≠ 0 := by
  refine ⟨?_, by norm_num, by norm_num⟩
  decide

/-- Claim C5, amended. `move_and_collide` resolves the X axis first and
then the Y axis, each clamping to the nearest obstacle edge; against a
single obstacle, an entity whose velocity has both components nonzero
(diagonal motion into a corner) always ends the step not overlapping that
obstacle. (With several obstacles a clamp can push the entity into an
obstacle checked earlier in the same pass, see the counterexample.) -/
theorem move_and_collide_single_obstacle (r wall : Rect) (vx vy : ℚ)
    (_hx : vx ≠ 0) (hy : vy ≠ 0) :
    collide (move_and_collide r vx vy [wall]) wall = false := by
  unfold move_and_collide
  simp only [List.foldl_cons, List.foldl_nil]
  generalize resolve_x vx { r with x := r.x + truncQ vx } wall = r2
  unfold resolve_y
  split_ifs with h3 h4 h5
  · -- clamped below the wall top: bottom = wall.top, no strict overlap
    simp only [collide, decide_eq_false_iff_not]
    intro hc
    unfold Collides at hc
    dsimp only at hc
    omega
  · -- clamped to the wall bottom: top = wall.bottom, no strict overlap
    simp only [collide, decide_eq_false_iff_not]
    intro hc
    unfold Collides at hc
    dsimp only at hc
    omega
  · exact absurd (le_antisymm (not_lt.1 h4) (not_lt.1 h5)) hy
  · simpa using h3

/-- Witness for the amended C5 theorem at a concrete input. -/
theorem move_and_collide_single_obstacle_witness :
    collide (move_and_collide ⟨0, 40, 10, 10⟩ 6 (-28) [⟨0, 25, 30, 10⟩]) ⟨0, 25, 30, 10⟩ = false :=
  move_and_collide_single_obstacle ⟨0, 40, 10, 10⟩ ⟨0, 25, 30, 10⟩ 6 (-28)
    (by norm_num) (by norm_num)

/-- `Bullet` (`entities.py` lines 10-16). `dir` stores the raw aim vector;
the source stores `direction.normalize()` when the vector is nonzero and
`Vec(1, 0)` otherwise (normalisation is a positive rescaling the claims do
not depend on). -/
structure Bullet where
  pos : ℚ × ℚ
  dir : ℚ × ℚ
  owner : String
  radius : Int
  alive : Bool
deriving DecidableEq

/-- `Bullet.__init__`. -/
def mkBullet (pos dir : ℚ × ℚ) (owner : String) : Bullet :=
  { pos := pos,
    dir := if dir = (0, 0) then (1, 0) else dir,
    owner := owner,
    radius := if owner = "player" then 4 else 5,
    alive := true }

/-- The three key flags of `Player.keys` (`entities.py` line 65). -/
inductive Key
  | jail_key
  | cave_key
  | boat_key
deriving DecidableEq

/-- The `k.replace('_', ' ')` rendering of a key name. -/
def keySpaced : Key → String
  | .jail_key => "jail key"
  | .cave_key => "cave key"
  | .boat_key => "boat key"

structure KeyFlags where
  jail_key : Bool
  cave_key : Bool
  boat_key : Bool
deriving DecidableEq

/-- `player.keys.get(k, False)`. -/
def KeyFlags.get (f : KeyFlags) : Key → Bool
  | .jail_key => f.jail_key
  | .cave_key => f.cave_key
  | .boat_key => f.boat_key

/-- `player.keys[k] = True`. -/
def KeyFlags.set_true (f : KeyFlags) : Key → KeyFlags
  | .jail_key => { f with jail_key := true }
  | .cave_key => { f with cave_key := true }
  | .boat_key => { f with boat_key := true }

/-- `Player` state (`entities.py` lines 33-38 and 58-68). -/
structure PlayerS where
  rect : Rect
  vel : ℚ × ℚ
  look_dir : ℚ × ℚ
  muzzle_timer : ℚ
  health : ℚ
  stamina : ℚ
  has_gun : Bool
  ammo : Int
  keys : KeyFlags
  clues : Nat
  rescued_npcs : Nat
  fire_cooldown : ℚ
deriving DecidableEq

/-- The keyboard state read by `Player.handle_input`. -/
structure InputState where
  up : Bool
  down : Bool
  left : Bool
  right : Bool
  shift : Bool
deriving DecidableEq

/-- The stamina update of `Player.handle_input` (`entities.py` lines
84-87): drain floored at 0 while sprinting, otherwise recover capped at
`MAX_STAMINA`. -/
def stamina_update (sprinting : Bool) (stamina stamina_drain stamina_recover dt : ℚ) : ℚ :=
  if sprinting then max 0 (stamina - stamina_drain * dt)
  else min MAX_STAMINA (stamina + stamina_recover * dt)

/-- `Player.handle_input(dt, stamina_drain, stamina_recover)`
(`entities.py` lines 70-95). `norm` stands for `Vec.normalize`. -/
def handle_input (norm : ℚ × ℚ → ℚ × ℚ) (inp : InputState)
    (dt stamina_drain stamina_recover : ℚ) (p : PlayerS) : PlayerS :=
  let dx : ℚ := (if inp.left then -1 else 0) + (if inp.right then 1 else 0)
  let dy : ℚ := (if inp.up then -1 else 0) + (if inp.down then 1 else 0)
  let dirSq := dx * dx + dy * dy
  let sprinting := inp.shift && decide (0 < p.stamina) && decide (0 < dirSq)
  let speed : ℚ := PLAYER_SPEED * (if sprinting then SPRINT_MULTIPLIER else 1)
  let stamina' := stamina_update sprinting p.stamina stamina_drain stamina_recover dt
  let dir' := if 0 < dirSq then norm (dx, dy) else (dx, dy)
  { p with
    stamina := stamina',
    look_dir := if 0 < dirSq then dir' else p.look_dir,
    vel := (dir'.1 * speed, dir'.2 * speed),
    fire_cooldown := max 0 (p.fire_cooldown - dt),
    muzzle_timer := max 0 (p.muzzle_timer - dt) }

/-- One frame record for a sequence of `handle_input` calls:
held keys, `dt`, and the profile's drain/recover rates. -/
structure InputFrame where
  inp : InputState
  dt : ℚ
  drain : ℚ
  recover : ℚ
deriving DecidableEq

/-- Folding `handle_input` over a sequence of frames. -/
def run_inputs (norm : ℚ × ℚ → ℚ × ℚ) (p : PlayerS) : List InputFrame → PlayerS
  | [] => p
  | f :: rest => run_inputs norm (handle_input norm f.inp f.dt f.drain f.recover p) rest

/-- `Player.try_shoot(target_pos)` (`entities.py` lines 97-107). Returns
the updated player and the optional bullet. -/
def try_shoot (norm : ℚ × ℚ → ℚ × ℚ) (p : PlayerS) (target : Int × Int) :
    PlayerS × Option Bullet :=
  if !p.has_gun || decide (p.ammo ≤ 0) || decide (0 < p.fire_cooldown) then
    (p, none)
  else
    let origin : ℚ × ℚ := ((p.rect.centerx : ℚ), (p.rect.centery : ℚ))
    let direction : ℚ × ℚ := ((target.1 : ℚ) - origin.1, (target.2 : ℚ) - origin.2)
    ({ p with
       ammo := p.ammo - 1,
       fire_cooldown := 18/100,
       look_dir := if direction = (0, 0) then p.look_dir else norm direction,
       muzzle_timer := 1/20 },
     some (mkBullet origin direction "player"))


/-- A concrete default player state used by the witnesses below
(the values match a fresh `Player(100, 550, story_profile)` except where a
witness overrides a field). -/
def samplePlayer : PlayerS :=
  { rect := ⟨100, 550, 22, 32⟩
    vel := (0, 0)
    look_dir := (1, 0)
    muzzle_timer := 0
    health := 120
    stamina := 100
    has_gun := false
    ammo := 0
    keys := ⟨false, false, false⟩
    clues := 0
    rescued_npcs := 0
    fire_cooldown := 0 }

/-- Claim C3. `try_shoot` returns no bullet and leaves the player state
unchanged when the player lacks the gun, has no ammo, or the fire cooldown
is still running; otherwise it consumes exactly one ammo, resets the
cooldown to 0.18 s and returns a Bullet owned by "player" aimed from the
player's center toward the target. The hypothesis `0 ≤ p.ammo` is the
ammo invariant of the game (ammo starts at 0, is only increased by
pickups, and only decremented when positive). -/
theorem try_shoot_spec (norm : ℚ × ℚ → ℚ × ℚ) (p : PlayerS) (target : Int × Int)
    (hammo : 0 ≤ p.ammo) :
    ((p.has_gun = false ∨ p.ammo = 0 ∨ 0 < p.fire_cooldown) →
      try_shoot norm p target = (p, none)) ∧
    (p.has_gun = true → p.ammo ≠ 0 → p.fire_cooldown ≤ 0 →
      (try_shoot norm p target).1.ammo = p.ammo - 1 ∧
      (try_shoot norm p target).1.fire_cooldown = 18/100 ∧
      (try_shoot norm p target).2 =
        some (mkBullet ((p.rect.centerx : ℚ), (p.rect.centery : ℚ))
          ((target.1 : ℚ) - (p.rect.centerx : ℚ), (target.2 : ℚ) - (p.rect.centery : ℚ))
          "player")) := by
  constructor
  · intro h
    have hcond : (!p.has_gun || decide (p.ammo ≤ 0) || decide (0 < p.fire_cooldown)) = true := by
      rcases h with h | h | h
      · simp [h]
      · simp [h]
      · simp [h]
    simp only [try_shoot, hcond, if_true]
  · intro hg ha hf
    have hcond : (!p.has_gun || decide (p.ammo ≤ 0) || decide (0 < p.fire_cooldown)) = false := by
      simp only [Bool.or_eq_false_iff, Bool.not_eq_false', decide_eq_false_iff_not, not_le, not_lt]
      exact ⟨⟨hg, lt_of_le_of_ne hammo (Ne.symm ha)⟩, hf⟩
    simp [try_shoot, hcond]

/-- A concrete armed player used by the C3 witness. -/
def shootPlayer : PlayerS := { samplePlayer with has_gun := true, ammo := 5 }

/-- Witness for the C3 theorem: a player with the gun, 5 ammo and no
cooldown shooting at (100, 100). -/
theorem try_shoot_spec_witness :
    (0 : Int) ≤ shootPlayer.ammo ∧
    (shootPlayer.has_gun = true → shootPlayer.ammo ≠ 0 → shootPlayer.fire_cooldown ≤ 0 →
      (try_shoot (fun v => v) shootPlayer (100, 100)).1.ammo = shootPlayer.ammo - 1 ∧
      (try_shoot (fun v => v) shootPlayer (100, 100)).1.fire_cooldown = 18/100 ∧
      (try_shoot (fun v => v) shootPlayer (100, 100)).2 =
        some (mkBullet ((shootPlayer.rect.centerx : ℚ), (shootPlayer.rect.centery : ℚ))
          (((100 : Int) : ℚ) - (shootPlayer.rect.centerx : ℚ),
           ((100 : Int) : ℚ) - (shootPlayer.rect.centery : ℚ))
          "player")) :=
  ⟨by norm_num [shootPlayer, samplePlayer],
   (try_shoot_spec (fun v => v) shootPlayer (100, 100)
      (by norm_num [shootPlayer, samplePlayer])).2⟩

/-- Single step of the stamina update stays inside `[0, MAX_STAMINA]`
when the rates and `dt` are nonnegative. -/
theorem handle_input_stamina_bounds (norm : ℚ × ℚ → ℚ × ℚ) (inp : InputState)
    (dt drain recover : ℚ) (p : PlayerS)
    (hdt : 0 ≤ dt) (hdr : 0 ≤ drain) (hrec : 0 ≤ recover)
    (hlo : 0 ≤ p.stamina) (hhi : p.stamina ≤ MAX_STAMINA) :
    0 ≤ (handle_input norm inp dt drain recover p).stamina ∧
    (handle_input norm inp dt drain recover p).stamina ≤ MAX_STAMINA := by
  have h1 : 0 ≤ drain * dt := mul_nonneg hdr hdt
  have h2 : 0 ≤ recover * dt := mul_nonneg hrec hdt
  have hM : (0 : ℚ) ≤ MAX_STAMINA := by unfold MAX_STAMINA; norm_num
  have hb : ∃ b : Bool, (handle_input norm inp dt drain recover p).stamina =
      stamina_update b p.stamina drain recover dt := ⟨_, rfl⟩
  obtain ⟨b, hbeq⟩ := hb
  rw [hbeq]
  unfold stamina_update
  cases b with
  | false =>
    simp only [Bool.false_eq_true, if_false]
    exact ⟨le_min hM (by linarith), min_le_left _ _⟩
  | true =>
    simp only [if_true]
    exact ⟨le_max_left _ _, max_le hM (by linarith)⟩

/-- The keyboard frame "hold right + sprint" and the resting frame, with
the Story profile drain/recover rates and a 60 fps `dt`. -/
def sprintFrame : InputFrame := ⟨⟨false, false, false, true, true⟩, 1/60, 24, 20⟩

def restFrame : InputFrame := ⟨⟨false, false, false, false, false⟩, 1/60, 24, 20⟩

/-- A sprinting frame with a negative drain rate, used to refute claim C7
as stated. -/
def negDrainFrame : InputFrame := ⟨⟨false, false, false, true, true⟩, 1, -1, 0⟩

/-- Claim C7, counterexample. The claim quantifies over "any drain/recover
rates"; with the negative drain rate -1 a single sprinting frame with
`dt = 1 ≥ 0` takes the stamina from the maximum 100 to 101, outside
`[0, MAX_STAMINA]`, because the sprint branch computes
`max(0, stamina - drain*dt)` with no upper clamp. -/
theorem stamina_bound_counterexample :
    (run_inputs (fun v => v) samplePlayer [negDrainFrame]).stamina = 101 ∧
    ¬((run_inputs (fun v => v) samplePlayer [negDrainFrame]).stamina ≤ MAX_STAMINA) ∧
    0 ≤ negDrainFrame.dt := by
  refine ⟨?_, ?_, by norm_num [negDrainFrame]⟩ <;>
    norm_num [run_inputs, handle_input, stamina_update, samplePlayer, negDrainFrame, MAX_STAMINA]

/-- Claim C7, amended. For every sequence of `handle_input` calls with
nonnegative `dt` and nonnegative drain/recover rates, starting from a
stamina inside `[0, MAX_STAMINA]`, the stamina stays inside
`[0, MAX_STAMINA]`; since the theorem applies to every prefix of the
sequence, the bound holds at every step. (The original claim's "any
drain/recover rates" fails for negative rates, see the counterexample.) -/
theorem stamina_bounds_nonneg_rates (norm : ℚ × ℚ → ℚ × ℚ) (p : PlayerS)
    (frames : List InputFrame)
    (hfr : ∀ f ∈ frames, 0 ≤ f.dt ∧ 0 ≤ f.drain ∧ 0 ≤ f.recover)
    (hlo : 0 ≤ p.stamina) (hhi : p.stamina ≤ MAX_STAMINA) :
    0 ≤ (run_inputs norm p frames).stamina ∧
    (run_inputs norm p frames).stamina ≤ MAX_STAMINA := by
  induction frames generalizing p with
  | nil => exact ⟨hlo, hhi⟩
  | cons f rest ih =>
    have hf := hfr f (List.mem_cons_self f rest)
    have step := handle_input_stamina_bounds norm f.inp f.dt f.drain f.recover p
      hf.1 hf.2.1 hf.2.2 hlo hhi
    exact ih _ (fun g hg => hfr g (List.mem_cons_of_mem f hg)) step.1 step.2

/-- Witness for the amended C7 theorem: a sprinting frame followed by a
resting frame with the Story profile rates, starting at stamina 60. -/
theorem stamina_bounds_nonneg_rates_witness :
    0 ≤ (run_inputs (fun v => v) { samplePlayer with stamina := 60 }
          [sprintFrame, restFrame]).stamina ∧
    (run_inputs (fun v => v) { samplePlayer with stamina := 60 }
          [sprintFrame, restFrame]).stamina ≤ MAX_STAMINA :=
  stamina_bounds_nonneg_rates (fun v => v) _ _
    (by
      intro f hf
      rcases List.mem_cons.mp hf with rfl | hf2
      · refine ⟨by norm_num [sprintFrame], by norm_num [sprintFrame], by norm_num [sprintFrame]⟩
      · rcases List.mem_cons.mp hf2 with rfl | hf3
        · refine ⟨by norm_num [restFrame], by norm_num [restFrame], by norm_num [restFrame]⟩
        · exact absurd hf3 (List.not_mem_nil f))
    (by norm_num [samplePlayer]) (by norm_num [samplePlayer, MAX_STAMINA])

/-- `DifficultyProfile` (`levels.py` lines 22-34 / `models.py`). -/
structure DifficultyProfile where
  name : String
  player_health : Int
  stamina_drain : ℚ
  stamina_recover : ℚ
  guard_speed : ℚ
  guard_sight : Int
  guard_shoot_cooldown : ℚ
  guard_health : Int
  guard_damage : Int
  player_damage : Int
  extra_guards : Nat
deriving DecidableEq

/-- The three difficulty presets (`levels.py` lines 37-41). -/
def DIFFICULTIES : List DifficultyProfile :=
  [⟨"Story", 120, 24, 20, 145/100, 260, 12/10, 38, 12, 24, 0⟩,
   ⟨"Survivor", 95, 30, 15, 19/10, 340, 85/100, 55, 18, 20, 1⟩,
   ⟨"Nightmare", 75, 38, 11, 24/10, 420, 62/100, 70, 24, 18, 2⟩]

def storyProfile : DifficultyProfile :=
  ⟨"Story", 120, 24, 20, 145/100, 260, 12/10, 38, 12, 24, 0⟩

/-- `Guard` state (`entities.py` lines 130-140 plus the `Character`
fields). -/
structure GuardS where
  rect : Rect
  vel : ℚ × ℚ
  look_dir : ℚ × ℚ
  muzzle_timer : ℚ
  patrol_points : List (ℚ × ℚ)
  current_patrol : Nat
  health : Int
  profile : DifficultyProfile
  shoot_timer : ℚ
  alerted : Bool
deriving DecidableEq

/-- `Guard.__init__(x, y, patrol_points, profile)` (`entities.py` lines
131-140). `shoot_timer0` stands for the `random.uniform(0.2, 0.8)` draw. -/
def guard_init (x y : Int) (patrol : List (Int × Int)) (profile : DifficultyProfile)
    (shoot_timer0 : ℚ) : GuardS :=
  let x := max 50 (min (WIDTH - 70) x)
  let y := max 50 (min (HEIGHT - 70) y)
  { rect := ⟨x, y, 22, 32⟩,
    vel := (0, 0),
    look_dir := (1, 0),
    muzzle_timer := 0,
    patrol_points := patrol.map (fun q => ((q.1 : ℚ), (q.2 : ℚ))),
    current_patrol := 0,
    health := profile.guard_health,
    profile := profile,
    shoot_timer := shoot_timer0,
    alerted := false }

/-- `Guard._line_of_sight(target, obstacles)` (`entities.py` lines
170-178): 25 probe rectangles at the interpolation parameters
`i / 26`, `i = 1..25`; sight is clear iff no probe overlaps an obstacle. -/
def line_of_sight (g : Rect) (target : Int × Int) (obstacles : List Rect) : Bool :=
  let x1 := g.centerx
  let y1 := g.centery
  (List.range 25).all fun j =>
    let t : ℚ := ((j : ℚ) + 1) / 26
    let probe : Rect := ⟨truncQ ((x1 : ℚ) + ((target.1 - x1 : Int) : ℚ) * t - 2),
                         truncQ ((y1 : ℚ) + ((target.2 - y1 : Int) : ℚ) * t - 2), 4, 4⟩
    !(obstacles.any fun w => collide w probe)

/-- The center-to-center vector from a guard rect to the player rect
(`Vec(player.rect.center) - Vec(self.rect.center)`). -/
def to_player (g player : Rect) : ℚ × ℚ :=
  (((player.centerx - g.centerx : Int) : ℚ), ((player.centery - g.centery : Int) : ℚ))

/-- `can_see` of `Guard.update` (`entities.py` line 145):
`dist <= profile.guard_sight and self._line_of_sight(...)`. The distance
comparison is embedded by comparing squares, which is equivalent for the
nonnegative sight radii of the game (see `guard_alert_fire_spec`). -/
def guard_can_see (g : GuardS) (player : Rect) (obstacles : List Rect) : Bool :=
  let tp := to_player g.rect player
  decide (tp.1 * tp.1 + tp.2 * tp.2 ≤ ((g.profile.guard_sight : ℚ)) ^ 2) &&
    line_of_sight g.rect (player.centerx, player.centery) obstacles

/-- The steering part of `Guard.update` (`entities.py` lines 146-159):
sets `alerted`, chases the player when seen (holding position within 75
px), otherwise advances the cyclic patrol (switching waypoints within 10
px). `norm` stands for `Vec.normalize`. When the patrol list is empty the
source would raise an `IndexError`; `getD` supplies an arbitrary default
(the game always builds nonempty patrols). -/
def guard_steer (norm : ℚ × ℚ → ℚ × ℚ) (g : GuardS) (player : Rect)
    (can_see : Bool) : GuardS :=
  let g := { g with alerted := can_see }
  let tp := to_player g.rect player
  let distSq := tp.1 * tp.1 + tp.2 * tp.2
  if can_see then
    let look := if 0 < distSq then norm tp else g.look_dir
    { g with look_dir := look,
             vel := if 5625 < distSq then
                      (look.1 * g.profile.guard_speed, look.2 * g.profile.guard_speed)
                    else (0, 0) }
  else
    let target := g.patrol_points.getD g.current_patrol (0, 0)
    let path : ℚ × ℚ := (target.1 - (g.rect.centerx : ℚ), target.2 - (g.rect.centery : ℚ))
    let pathSq := path.1 * path.1 + path.2 * path.2
    let next :=
      if pathSq < 100 then
        let cp := (g.current_patrol + 1) % g.patrol_points.length
        let t2 := g.patrol_points.getD cp (0, 0)
        (cp, (t2.1 - (g.rect.centerx : ℚ), t2.2 - (g.rect.centery : ℚ)))
      else (g.current_patrol, path)
    let pathSq2 := next.2.1 * next.2.1 + next.2.2 * next.2.2
    { g with current_patrol := next.1,
             vel := if 0 < pathSq2 then
                      ((norm next.2).1 * g.profile.guard_speed,
                       (norm next.2).2 * g.profile.guard_speed)
                    else (0, 0),
             look_dir := if 0 < pathSq2 then norm next.2 else g.look_dir }

/-- `Guard.update(dt, player, obstacles)` (`entities.py` lines 142-168):
sense, steer, move, decrement timers (the shoot timer has no lower
clamp), then fire at the player and reset the shoot timer when alerted
with the shoot timer expired. -/
def guard_update (norm : ℚ × ℚ → ℚ × ℚ) (dt : ℚ) (g : GuardS) (player : Rect)
    (obstacles : List Rect) : GuardS × Option Bullet :=
  let tp := to_player g.rect player
  let can_see := guard_can_see g player obstacles
  let g1 := guard_steer norm g player can_see
  let g2 := { g1 with rect := move_and_collide g1.rect g1.vel.1 g1.vel.2 obstacles }
  let g3 := { g2 with shoot_timer := g2.shoot_timer - dt,
                      muzzle_timer := max 0 (g2.muzzle_timer - dt) }
  if can_see && decide (g3.shoot_timer ≤ 0) then
    ({ g3 with shoot_timer := g3.profile.guard_shoot_cooldown, muzzle_timer := 1/20 },
     some (mkBullet ((g3.rect.centerx : ℚ), (g3.rect.centery : ℚ)) tp "guard"))
  else (g3, none)

theorem guard_steer_alerted (norm : ℚ × ℚ → ℚ × ℚ) (g : GuardS) (player : Rect)
    (cs : Bool) : (guard_steer norm g player cs).alerted = cs := by
  unfold guard_steer
  dsimp only
  split <;> rfl

theorem guard_steer_shoot_timer (norm : ℚ × ℚ → ℚ × ℚ) (g : GuardS) (player : Rect)
    (cs : Bool) : (guard_steer norm g player cs).shoot_timer = g.shoot_timer := by
  unfold guard_steer
  dsimp only
  split <;> rfl

theorem guard_steer_profile (norm : ℚ × ℚ → ℚ × ℚ) (g : GuardS) (player : Rect)
    (cs : Bool) : (guard_steer norm g player cs).profile = g.profile := by
  unfold guard_steer
  dsimp only
  split <;> rfl

theorem guard_steer_health (norm : ℚ × ℚ → ℚ × ℚ) (g : GuardS) (player : Rect)
    (cs : Bool) : (guard_steer norm g player cs).health = g.health := by
  unfold guard_steer
  dsimp only
  split <;> rfl

theorem guard_update_alerted (norm : ℚ × ℚ → ℚ × ℚ) (dt : ℚ) (g : GuardS)
    (player : Rect) (obstacles : List Rect) :
    (guard_update norm dt g player obstacles).1.alerted =
      guard_can_see g player obstacles := by
  unfold guard_update
  dsimp only
  split <;> simp [guard_steer_alerted]

theorem guard_update_health (norm : ℚ × ℚ → ℚ × ℚ) (dt : ℚ) (g : GuardS)
    (player : Rect) (obstacles : List Rect) :
    (guard_update norm dt g player obstacles).1.health = g.health := by
  unfold guard_update
  dsimp only
  split <;> simp [guard_steer_health]

theorem guard_update_isSome (norm : ℚ × ℚ → ℚ × ℚ) (dt : ℚ) (g : GuardS)
    (player : Rect) (obstacles : List Rect) :
    (guard_update norm dt g player obstacles).2.isSome =
      (guard_can_see g player obstacles && decide (g.shoot_timer - dt ≤ 0)) := by
  unfold guard_update
  dsimp only
  rw [guard_steer_shoot_timer]
  split
  · next h => simp_all
  · next h => simp_all

theorem guard_update_shot (norm : ℚ × ℚ → ℚ × ℚ) (dt : ℚ) (g : GuardS)
    (player : Rect) (obstacles : List Rect) (b : Bullet)
    (hb : (guard_update norm dt g player obstacles).2 = some b) :
    b.owner = "guard" ∧
    b.dir = (if to_player g.rect player = (0, 0) then (1, 0) else to_player g.rect player) ∧
    (guard_update norm dt g player obstacles).1.shoot_timer =
      g.profile.guard_shoot_cooldown := by
  unfold guard_update at hb ⊢
  dsimp only at hb ⊢
  split at hb
  · next h =>
    rw [Option.some_inj] at hb
    subst hb
    refine ⟨rfl, rfl, ?_⟩
    rw [if_pos h]
    dsimp only
    rw [guard_steer_profile]
  · next h => exact absurd hb (by simp)

theorem guard_update_no_shot (norm : ℚ × ℚ → ℚ × ℚ) (dt : ℚ) (g : GuardS)
    (player : Rect) (obstacles : List Rect)
    (hb : (guard_update norm dt g player obstacles).2 = none) :
    (guard_update norm dt g player obstacles).1.shoot_timer = g.shoot_timer - dt := by
  unfold guard_update at hb ⊢
  dsimp only at hb ⊢
  split at hb
  · next h => exact absurd hb (by simp)
  · next h =>
    rw [if_neg h]
    dsimp only
    rw [guard_steer_shoot_timer]

theorem guard_update_muzzle_nonneg (norm : ℚ × ℚ → ℚ × ℚ) (dt : ℚ) (g : GuardS)
    (player : Rect) (obstacles : List Rect) :
    0 ≤ (guard_update norm dt g player obstacles).1.muzzle_timer := by
  unfold guard_update
  dsimp only
  split
  · norm_num
  · exact le_max_left _ _

/-- Claim C10. `Guard.__init__` clamps the supplied coordinates into
`x ∈ [50, WIDTH - 70]` and `y ∈ [50, HEIGHT - 70]` before building the
guard's rect, for every input position, patrol list, profile, and initial
shoot-timer draw. -/
theorem guard_init_clamped (x y : Int) (patrol : List (Int × Int))
    (profile : DifficultyProfile) (st : ℚ) :
    50 ≤ (guard_init x y patrol profile st).rect.x ∧
    (guard_init x y patrol profile st).rect.x ≤ WIDTH - 70 ∧
    50 ≤ (guard_init x y patrol profile st).rect.y ∧
    (guard_init x y patrol profile st).rect.y ≤ HEIGHT - 70 := by
  unfold guard_init
  dsimp only
  refine ⟨le_max_left _ _, ?_, le_max_left _ _, ?_⟩
  · exact max_le (by norm_num [WIDTH]) (min_le_left _ _)
  · exact max_le (by norm_num [HEIGHT]) (min_le_left _ _)

/-- Claim C4. On every `Guard.update` call the `alerted` flag is set true
exactly when the euclidean distance between the two centers is at most
the profile's sight radius and none of the 25 interpolated probe
rectangles overlaps an obstacle; a bullet is returned exactly when the
guard is alerted and the decremented shoot timer has reached 0, in which
case the bullet is owned by "guard", aimed along the center-to-center
vector toward the player, and the shoot timer is reset to the profile's
`guard_shoot_cooldown`. The hypothesis `0 ≤ guard_sight` holds for all
three difficulty profiles (260, 340, 420). -/
theorem guard_alert_fire_spec (norm : ℚ × ℚ → ℚ × ℚ) (dt : ℚ) (g : GuardS)
    (player : Rect) (obstacles : List Rect)
    (hsight : 0 ≤ g.profile.guard_sight) :
    ((guard_update norm dt g player obstacles).1.alerted = true ↔
      (Real.sqrt ((((to_player g.rect player).1 : ℝ)) ^ 2 +
          (((to_player g.rect player).2 : ℝ)) ^ 2) ≤ (g.profile.guard_sight : ℝ) ∧
       line_of_sight g.rect (player.centerx, player.centery) obstacles = true)) ∧
    ((guard_update norm dt g player obstacles).2.isSome = true ↔
      ((guard_update norm dt g player obstacles).1.alerted = true ∧
       g.shoot_timer - dt ≤ 0)) ∧
    (∀ b, (guard_update norm dt g player obstacles).2 = some b →
      b.owner = "guard" ∧
      b.dir = (if to_player g.rect player = (0, 0) then (1, 0)
               else to_player g.rect player) ∧
      (guard_update norm dt g player obstacles).1.shoot_timer =
        g.profile.guard_shoot_cooldown) := by
  refine ⟨?_, ?_, fun b hb => guard_update_shot norm dt g player obstacles b hb⟩
  · rw [guard_update_alerted]
    unfold guard_can_see
    dsimp only
    rw [Bool.and_eq_true, decide_eq_true_iff]
    have hs' : (0 : ℝ) ≤ (g.profile.guard_sight : ℝ) := by exact_mod_cast hsight
    rw [Real.sqrt_le_left hs']
    constructor
    · rintro ⟨h1, h2⟩
      refine ⟨?_, h2⟩
      have : (((to_player g.rect player).1 * (to_player g.rect player).1 +
          (to_player g.rect player).2 * (to_player g.rect player).2 : ℚ) : ℝ) ≤
          (((g.profile.guard_sight : ℚ) ^ 2 : ℚ) : ℝ) := by exact_mod_cast h1
      push_cast at this
      nlinarith [this]
    · rintro ⟨h1, h2⟩
      refine ⟨?_, h2⟩
      have : (((to_player g.rect player).1 : ℝ)) ^ 2 +
          (((to_player g.rect player).2 : ℝ)) ^ 2 ≤
          ((g.profile.guard_sight : Int) : ℝ) ^ 2 := h1
      rw [show (((to_player g.rect player).1 : ℝ)) ^ 2 +
            (((to_player g.rect player).2 : ℝ)) ^ 2 =
          (((to_player g.rect player).1 * (to_player g.rect player).1 +
            (to_player g.rect player).2 * (to_player g.rect player).2 : ℚ) : ℝ) from by
          push_cast; ring] at this
      rw [show ((g.profile.guard_sight : Int) : ℝ) ^ 2 =
          ((((g.profile.guard_sight : Int) : ℚ)) ^ 2 : ℚ) from by push_cast; ring] at this
      exact_mod_cast this
  · rw [guard_update_isSome, guard_update_alerted]
    rw [Bool.and_eq_true, decide_eq_true_iff]

/-- A patrol guard far from the player, used by witnesses and the C8
counterexample: it cannot see the player so it never fires, and its shoot
timer is decremented without a floor. -/
def idleGuard : GuardS :=
  { rect := ⟨100, 100, 22, 32⟩
    vel := (0, 0)
    look_dir := (1, 0)
    muzzle_timer := 0
    patrol_points := [(111, 116)]
    current_patrol := 0
    health := 38
    profile := storyProfile
    shoot_timer := 0
    alerted := false }

def farPlayerRect : Rect := ⟨1000, 100, 22, 32⟩

/-- Witness for the C4 theorem at a concrete guard and player. -/
theorem guard_alert_fire_spec_witness :
    0 ≤ idleGuard.profile.guard_sight ∧
    (((guard_update (fun v => v) 1 idleGuard farPlayerRect []).1.alerted = true ↔
      (Real.sqrt ((((to_player idleGuard.rect farPlayerRect).1 : ℝ)) ^ 2 +
          (((to_player idleGuard.rect farPlayerRect).2 : ℝ)) ^ 2) ≤
          (idleGuard.profile.guard_sight : ℝ) ∧
       line_of_sight idleGuard.rect (farPlayerRect.centerx, farPlayerRect.centery) [] = true)) ∧
    ((guard_update (fun v => v) 1 idleGuard farPlayerRect []).2.isSome = true ↔
      ((guard_update (fun v => v) 1 idleGuard farPlayerRect []).1.alerted = true ∧
       idleGuard.shoot_timer - 1 ≤ 0)) ∧
    (∀ b, (guard_update (fun v => v) 1 idleGuard farPlayerRect []).2 = some b →
      b.owner = "guard" ∧
      b.dir = (if to_player idleGuard.rect farPlayerRect = (0, 0) then (1, 0)
               else to_player idleGuard.rect farPlayerRect) ∧
      (guard_update (fun v => v) 1 idleGuard farPlayerRect []).1.shoot_timer =
        idleGuard.profile.guard_shoot_cooldown)) :=
  ⟨by norm_num [idleGuard, storyProfile],
   guard_alert_fire_spec (fun v => v) 1 idleGuard farPlayerRect []
     (by norm_num [idleGuard, storyProfile])⟩

/-- Claim C8, counterexample. The guard's shoot timer is decremented with
no lower clamp (`self.shoot_timer -= dt`, `entities.py` line 162): a
patrolling guard that cannot see the player, with shoot timer 0 and
`dt = 1 ≥ 0`, ends the update with shoot timer -1 < 0. -/
theorem guard_timer_negative_counterexample :
    (guard_update (fun v => v) 1 idleGuard farPlayerRect []).1.shoot_timer = -1 ∧
    ¬(0 ≤ (guard_update (fun v => v) 1 idleGuard farPlayerRect []).1.shoot_timer) ∧
    (0 : ℚ) ≤ 1 := by
  have h : (guard_update (fun v => v) 1 idleGuard farPlayerRect []).1.shoot_timer = -1 := by
    have hnone : (guard_update (fun v => v) 1 idleGuard farPlayerRect []).2 = none := by
      have hsome := guard_update_isSome (fun v => v) 1 idleGuard farPlayerRect []
      have hcs : guard_can_see idleGuard farPlayerRect [] = false := by
        unfold guard_can_see to_player
        norm_num [idleGuard, farPlayerRect, storyProfile, Rect.centerx, Rect.centery]
      rw [hcs] at hsome
      simp only [Bool.false_and] at hsome
      exact Option.not_isSome_iff_eq_none.mp (by simp [hsome])
    have := guard_update_no_shot (fun v => v) 1 idleGuard farPlayerRect [] hnone
    rw [this]
    norm_num [idleGuard]
  refine ⟨h, ?_, by norm_num⟩
  rw [h]
  norm_num

/-- Claim C8, amended. The player's `fire_cooldown` and `muzzle_timer`
are decremented by `dt` and clamped at zero on every `handle_input` call
(never negative afterwards), and the guard's `muzzle_timer` likewise on
every `Guard.update`; the guard's shoot timer, however, is decremented
with NO clamp (it equals the old value minus `dt` whenever no bullet is
fired, and so can become negative; it is reset to
`guard_shoot_cooldown` when the guard fires). -/
theorem cooldown_timers_spec (norm : ℚ × ℚ → ℚ × ℚ) (inp : InputState)
    (dt drain recover : ℚ) (p : PlayerS) (g : GuardS) (player : Rect)
    (obstacles : List Rect) :
    (handle_input norm inp dt drain recover p).fire_cooldown =
      max 0 (p.fire_cooldown - dt) ∧
    0 ≤ (handle_input norm inp dt drain recover p).fire_cooldown ∧
    (handle_input norm inp dt drain recover p).muzzle_timer =
      max 0 (p.muzzle_timer - dt) ∧
    0 ≤ (handle_input norm inp dt drain recover p).muzzle_timer ∧
    0 ≤ (guard_update norm dt g player obstacles).1.muzzle_timer ∧
    ((guard_update norm dt g player obstacles).2 = none →
      (guard_update norm dt g player obstacles).1.shoot_timer = g.shoot_timer - dt) := by
  refine ⟨rfl, ?_, rfl, ?_, guard_update_muzzle_nonneg norm dt g player obstacles,
    guard_update_no_shot norm dt g player obstacles⟩
  · rw [show (handle_input norm inp dt drain recover p).fire_cooldown =
        max 0 (p.fire_cooldown - dt) from rfl]
    exact le_max_left _ _
  · rw [show (handle_input norm inp dt drain recover p).muzzle_timer =
        max 0 (p.muzzle_timer - dt) from rfl]
    exact le_max_left _ _

/-- Witness for the amended C8 theorem at a concrete input. -/
theorem cooldown_timers_spec_witness :
    (handle_input (fun v => v) sprintFrame.inp (1/60) 24 20 samplePlayer).fire_cooldown =
      max 0 (samplePlayer.fire_cooldown - 1/60) ∧
    0 ≤ (handle_input (fun v => v) sprintFrame.inp (1/60) 24 20 samplePlayer).fire_cooldown ∧
    (handle_input (fun v => v) sprintFrame.inp (1/60) 24 20 samplePlayer).muzzle_timer =
      max 0 (samplePlayer.muzzle_timer - 1/60) ∧
    0 ≤ (handle_input (fun v => v) sprintFrame.inp (1/60) 24 20 samplePlayer).muzzle_timer ∧
    0 ≤ (guard_update (fun v => v) (1/60) idleGuard farPlayerRect []).1.muzzle_timer ∧
    ((guard_update (fun v => v) (1/60) idleGuard farPlayerRect []).2 = none →
      (guard_update (fun v => v) (1/60) idleGuard farPlayerRect []).1.shoot_timer =
        idleGuard.shoot_timer - 1/60) :=
  cooldown_timers_spec (fun v => v) sprintFrame.inp (1/60) 24 20 samplePlayer
    idleGuard farPlayerRect []

/-- The per-frame guard pass of `Game.update` (`game.py` lines 395-402):
iterate over a snapshot of the current zone's guard list, call
`guard.update` on EVERY guard in the snapshot, append any bullet it
returns, and remove the guard from the live collection when its health
is ≤ 0. -/
def update_guards (norm : ℚ × ℚ → ℚ × ℚ) (dt : ℚ) (player : Rect)
    (obstacles : List Rect) : List GuardS → List GuardS × List Bullet
  | [] => ([], [])
  | g :: rest =>
    let r := guard_update norm dt g player obstacles
    let rec_r := update_guards norm dt player obstacles rest
    ((if r.1.health ≤ 0 then rec_r.1 else r.1 :: rec_r.1),
     match r.2 with
     | some b => b :: rec_r.2
     | none => rec_r.2)

/-- A guard whose health already reached 0 before the frame, standing
next to the player with an expired shoot timer. -/
def deadGuard : GuardS :=
  { rect := ⟨100, 100, 22, 32⟩
    vel := (0, 0)
    look_dir := (1, 0)
    muzzle_timer := 0
    patrol_points := [(111, 116)]
    current_patrol := 0
    health := 0
    profile := storyProfile
    shoot_timer := 0
    alerted := false }

def nearPlayerRect : Rect := ⟨120, 100, 22, 32⟩

/-- Claim C6, counterexample. A guard whose health is already ≤ 0 at the
start of the frame still receives a `Guard.update` call during the guard
pass — here it even fires a bullet at the player — and only afterwards is
it removed from the collection. This refutes "a guard whose health is
already ≤ 0 at the start of a frame is never given another Guard.update
call (it never moves or fires again)". -/
theorem dead_guard_updates_counterexample :
    deadGuard.health ≤ 0 ∧
    (update_guards (fun v => v) (1/10) nearPlayerRect [] [deadGuard]).1 = [] ∧
    (update_guards (fun v => v) (1/10) nearPlayerRect [] [deadGuard]).2 =
      [mkBullet (111, 116) (20, 0) "guard"] := by
  refine ⟨by norm_num [deadGuard], ?_, ?_⟩ <;>
    norm_num [update_guards, guard_update, guard_steer, guard_can_see, line_of_sight,
      to_player, move_and_collide, truncQ, deadGuard, nearPlayerRect, storyProfile,
      Rect.centerx, Rect.centery, guard_update_health]

/-- Claim C6, amended. During the per-frame guard pass every guard in the
snapshot receives exactly one `Guard.update` call — including a guard
whose health is already ≤ 0, which may still move and fire once more (see
the counterexample) — `Guard.update` never changes health, and a guard
with health ≤ 0 is then removed from the zone's collection in that same
pass: the collection after the pass contains only guards with positive
health, so a removed guard is never updated again. -/
theorem guard_pass_removes_dead (norm : ℚ × ℚ → ℚ × ℚ) (dt : ℚ) (player : Rect)
    (obstacles : List Rect) (guards : List GuardS) :
    (∀ g' ∈ (update_guards norm dt player obstacles guards).1, 0 < g'.health) ∧
    (∀ g, (guard_update norm dt g player obstacles).1.health = g.health) := by
  refine ⟨?_, fun g => guard_update_health norm dt g player obstacles⟩
  induction guards with
  | nil => intro g' hg'; simp [update_guards] at hg'
  | cons g rest ih =>
    intro g' hg'
    unfold update_guards at hg'
    dsimp only at hg'
    by_cases hd : (guard_update norm dt g player obstacles).1.health ≤ 0
    · rw [if_pos hd] at hg'
      exact ih g' hg'
    · rw [if_neg hd] at hg'
      rcases List.mem_cons.mp hg' with rfl | hmem
      · omega
      · exact ih g' hmem

/-- Witness for the amended C6 theorem at a concrete input. -/
theorem guard_pass_removes_dead_witness :
    (∀ g' ∈ (update_guards (fun v => v) (1/10) nearPlayerRect [] [deadGuard]).1,
      0 < g'.health) ∧
    (∀ g, (guard_update (fun v => v) (1/10) g nearPlayerRect []).1.health = g.health) :=
  guard_pass_removes_dead (fun v => v) (1/10) nearPlayerRect [] [deadGuard]

/-- The four zones (`game.py` line 28, `region_order`). -/
inductive Zone
  | Ground
  | Estate
  | Tunnels
  | Harbor
deriving DecidableEq

def zoneName : Zone → String
  | .Ground => "Ground"
  | .Estate => "Estate"
  | .Tunnels => "Tunnels"
  | .Harbor => "Harbor"

/-- `region_order.index(z)` for `region_order = [Ground, Estate, Tunnels,
Harbor]`. -/
def zoneIdx : Zone → Nat
  | .Ground => 0
  | .Estate => 1
  | .Tunnels => 2
  | .Harbor => 3

/-- The composite item identifiers stored in the `collected` set
(`game.py`, `Game.interact`): the literal `"gun"`, `"ammo_<zone>_<idx>"`,
and `"clue_<zone>"` strings are embedded as an inductive type (the
f-string encodings are injective). -/
inductive ItemId
  | gun
  | ammo (zone : Zone) (idx : Nat)
  | clue (zone : Zone)
deriving DecidableEq

/-- `set.add`: insert an identifier if absent (a Python set has no
duplicates). -/
def addId (i : ItemId) (l : List ItemId) : List ItemId :=
  if i ∈ l then l else i :: l

/-- `ZoneGate` (`models.py` / `levels.py` lines 15-20). -/
structure ZoneGate where
  rect : Rect
  target_zone : Zone
  spawn : Int × Int
  required_key : Option Key
deriving DecidableEq

/-- NPC state (`entities.py` lines 188-193). -/
structure NPCS where
  rect : Rect
  zone : Zone
  following : Bool
  rescued : Bool
deriving DecidableEq

/-- The slice of the `Game` state read and written by the interaction,
gate-transition and extraction logic of `game.py`. -/
structure GState where
  zone : Zone
  player : PlayerS
  npcs : List NPCS
  collected : List ItemId
  pathway_cooldown : ℚ
  pathway_hint_cooldown : ℚ
  message : String
  message_time : ℚ
  victory : Bool
deriving DecidableEq

/-- `Game.current_region_tasks` (`game.py` lines 314-323). -/
def current_region_tasks (s : GState) : List (String × Bool) :=
  match s.zone with
  | .Ground =>
      [("Find Ground clue", decide (ItemId.clue .Ground ∈ s.collected)),
       ("Collect Jail key", s.player.keys.jail_key),
       ("Get a weapon", s.player.has_gun)]
  | .Estate =>
      let done := s.npcs.any fun n =>
        decide (n.zone = .Estate) && (n.following || n.rescued)
      [("Find Estate clue", decide (ItemId.clue .Estate ∈ s.collected)),
       ("Collect Cave key", s.player.keys.cave_key),
       ("Help trapped worker", done)]
  | .Tunnels =>
      let done := s.npcs.any fun n =>
        decide (n.zone = .Tunnels) && (n.following || n.rescued)
      [("Find Tunnel clue", decide (ItemId.clue .Tunnels ∈ s.collected)),
       ("Collect Boat key", s.player.keys.boat_key),
       ("Guide tunnel survivor", done)]
  | .Harbor =>
      [("Bring all clues", decide (3 ≤ s.player.clues)),
       ("Bring all keys",
        s.player.keys.jail_key && s.player.keys.cave_key && s.player.keys.boat_key),
       ("Rescue both survivors", decide (2 ≤ s.player.rescued_npcs))]

/-- `Game.region_complete(zone)` (`game.py` lines 325-326). -/
def region_complete (s : GState) (zone : Zone) : Bool :=
  if s.zone = zone then (current_region_tasks s).all (fun t => t.2) else false

/-- The extraction check of `Game.update` (`game.py` lines 470-475):
when the player overlaps the extraction rectangle, victory becomes true
iff `clues >= 3 and all(keys.values()) and rescued_npcs >= 2`; otherwise
only a rejection message is assigned. -/
def extraction_check (extraction : Option Rect) (s : GState) : GState :=
  match extraction with
  | none => s
  | some ext =>
    if collide s.player.rect ext then
      if decide (3 ≤ s.player.clues) && s.player.keys.jail_key &&
          s.player.keys.cave_key && s.player.keys.boat_key &&
          decide (2 ≤ s.player.rescued_npcs) then
        { s with victory := true }
      else
        { s with message := "Not ready: need all clues, keys, and rescued survivors." }
    else s

/-- Claim C1. For a frame in which the player overlaps the extraction
rectangle (the update loop only runs while `victory` is false), victory
becomes true iff clues = 3, all three keys are held and rescued = 2;
when any condition fails, victory stays false, the rejection message is
shown, and no other state field changes (the player, zone, NPCs,
collected set and cooldowns are unchanged in either case). The
hypotheses `clues ≤ 3` and `rescued_npcs ≤ 2` are the game's counting
invariants: there are exactly three one-shot clue pickups and exactly
two rescuable NPCs. -/
theorem extraction_victory_iff (ext : Rect) (s : GState)
    (hvic : s.victory = false) (hcl : s.player.clues ≤ 3)
    (hre : s.player.rescued_npcs ≤ 2)
    (hov : collide s.player.rect ext = true) :
    ((extraction_check (some ext) s).victory = true ↔
      (s.player.clues = 3 ∧ s.player.keys.jail_key = true ∧
       s.player.keys.cave_key = true ∧ s.player.keys.boat_key = true ∧
       s.player.rescued_npcs = 2)) ∧
    (extraction_check (some ext) s).zone = s.zone ∧
    (extraction_check (some ext) s).player = s.player ∧
    (extraction_check (some ext) s).npcs = s.npcs ∧
    (extraction_check (some ext) s).collected = s.collected ∧
    (extraction_check (some ext) s).pathway_cooldown = s.pathway_cooldown ∧
    (extraction_check (some ext) s).message_time = s.message_time ∧
    ((extraction_check (some ext) s).victory = false →
      (extraction_check (some ext) s).message =
        "Not ready: need all clues, keys, and rescued survivors.") := by
  unfold extraction_check
  dsimp only
  rw [hov]
  simp only [if_true]
  by_cases hc : (decide (3 ≤ s.player.clues) && s.player.keys.jail_key &&
      s.player.keys.cave_key && s.player.keys.boat_key &&
      decide (2 ≤ s.player.rescued_npcs)) = true
  · rw [if_pos hc]
    simp only [Bool.and_eq_true, decide_eq_true_iff] at hc
    refine ⟨?_, rfl, rfl, rfl, rfl, rfl, rfl, by intro h; exact absurd h (by simp)⟩
    constructor
    · intro _
      exact ⟨by omega, hc.1.1.1.2, hc.1.1.2, hc.1.2, by omega⟩
    · intro _
      rfl
  · rw [if_neg hc]
    refine ⟨?_, rfl, rfl, rfl, rfl, rfl, rfl, fun _ => rfl⟩
    constructor
    · intro h
      exact absurd h (by simp [hvic])
    · rintro ⟨h1, h2, h3, h4, h5⟩
      exact absurd (by simp [h1, h2, h3, h4, h5]) hc

/-- The Harbor extraction rectangle (`levels.py` line 149). -/
def harborExtraction : Rect := ⟨1020, 210, 80, 40⟩

/-- A player standing on the Harbor extraction boat with everything
collected. -/
def readyPlayer : PlayerS :=
  { samplePlayer with
    rect := ⟨1030, 215, 22, 32⟩
    clues := 3
    rescued_npcs := 2
    keys := ⟨true, true, true⟩ }

def extractionReadyState : GState :=
  { zone := .Harbor
    player := readyPlayer
    npcs := []
    collected := []
    pathway_cooldown := 0
    pathway_hint_cooldown := 0
    message := ""
    message_time := 0
    victory := false }

/-- Witness for the C1 theorem: the fully-prepared player overlapping the
Harbor extraction boat. -/
theorem extraction_victory_iff_witness :
    ((extraction_check (some harborExtraction) extractionReadyState).victory = true ↔
      (extractionReadyState.player.clues = 3 ∧
       extractionReadyState.player.keys.jail_key = true ∧
       extractionReadyState.player.keys.cave_key = true ∧
       extractionReadyState.player.keys.boat_key = true ∧
       extractionReadyState.player.rescued_npcs = 2)) ∧
    (extraction_check (some harborExtraction) extractionReadyState).zone =
      extractionReadyState.zone ∧
    (extraction_check (some harborExtraction) extractionReadyState).player =
      extractionReadyState.player ∧
    (extraction_check (some harborExtraction) extractionReadyState).npcs =
      extractionReadyState.npcs ∧
    (extraction_check (some harborExtraction) extractionReadyState).collected =
      extractionReadyState.collected ∧
    (extraction_check (some harborExtraction) extractionReadyState).pathway_cooldown =
      extractionReadyState.pathway_cooldown ∧
    (extraction_check (some harborExtraction) extractionReadyState).message_time =
      extractionReadyState.message_time ∧
    ((extraction_check (some harborExtraction) extractionReadyState).victory = false →
      (extraction_check (some harborExtraction) extractionReadyState).message =
        "Not ready: need all clues, keys, and rescued survivors.") :=
  extraction_victory_iff harborExtraction extractionReadyState
    rfl
    (by norm_num [extractionReadyState, readyPlayer, samplePlayer])
    (by norm_num [extractionReadyState, readyPlayer, samplePlayer])
    (by decide)

/-- `gate.required_key and not self.player.keys.get(gate.required_key,
False)` (`game.py` line 437). -/
def gate_key_missing (p : PlayerS) (gate : ZoneGate) : Bool :=
  match gate.required_key with
  | some k => !(p.keys.get k)
  | none => false

/-- The rate-limited gate hint (`game.py` lines 438-441 and 447-449):
assign the message and re-arm the 1 s hint cooldown only when the hint
cooldown has elapsed. -/
def show_hint (s : GState) (msg : String) : GState :=
  if s.pathway_hint_cooldown ≤ 0 then
    { s with message := msg, pathway_hint_cooldown := 1 }
  else s

/-- `f"Pathway locked: requires {gate.required_key.replace('_', ' ')}"`. -/
def locked_hint_message (gate : ZoneGate) : String :=
  "Pathway locked: requires " ++
    (match gate.required_key with
     | some k => keySpaced k
     | none => "")

/-- The loop body of `Game.transfer_followers` (`game.py` lines 482-499):
every following, un-rescued NPC of the old zone is moved to the new zone
and re-centered near the player with an index-staggered offset; returns
the new NPC list and the transfer count. -/
def transfer_followers_aux (oldZone newZone : Zone) (pcx pcy : Int) :
    List NPCS → Nat → List NPCS × Nat
  | [], k => ([], k)
  | n :: rest, k =>
    if n.following && !n.rescued && decide (n.zone = oldZone) then
      let n' := { n with
                  zone := newZone
                  rect := n.rect.set_center (pcx + (-40 - (k : Int) * 20)) (pcy + 20) }
      let r := transfer_followers_aux oldZone newZone pcx pcy rest (k + 1)
      (n' :: r.1, r.2)
    else
      let r := transfer_followers_aux oldZone newZone pcx pcy rest k
      (n :: r.1, r.2)

/-- `Game.transfer_followers(new_zone)` (`game.py` lines 479-503). -/
def transfer_followers (newZone : Zone) (s : GState) : GState :=
  let r := transfer_followers_aux s.zone newZone s.player.rect.centerx
    s.player.rect.centery s.npcs 0
  if 0 < r.2 then
    { s with npcs := r.1,
             message := toString r.2 ++ " survivor(s) followed you through the portal",
             message_time := 2 }
  else { s with npcs := r.1 }

/-- The gate loop of `Game.update` (`game.py` lines 433-468): for each
gate in order, break while the 0.7 s pathway cooldown is running; on
overlap, a missing required key or (for forward travel in region order)
incomplete region tasks block the transition with a rate-limited hint;
otherwise followers are transferred, the zone switches, the player is
moved to the gate's spawn (with the Harbor water fix-up), the cooldown is
reset to 0.7 s and the loop breaks. -/
def process_gates (s : GState) : List ZoneGate → GState
  | [] => s
  | gate :: rest =>
    if 0 < s.pathway_cooldown then s
    else if collide s.player.rect gate.rect then
      if gate_key_missing s.player gate then
        process_gates (show_hint s (locked_hint_message gate)) rest
      else if decide (zoneIdx s.zone < zoneIdx gate.target_zone) &&
              !(region_complete s s.zone) then
        process_gates (show_hint s "Complete this region\x27s tasks first.") rest
      else
        let s1 := transfer_followers gate.target_zone s
        let s2 : GState := { s1 with
          zone := gate.target_zone
          player := { s1.player with rect :=
            { s1.player.rect with x := gate.spawn.1, y := gate.spawn.2 } } }
        let s3 := if decide (s2.zone = Zone.Harbor) &&
                     decide (s2.player.rect.centery < 300) then
            { s2 with player := { s2.player with rect := s2.player.rect.set_centery 400 } }
          else s2
        { s3 with pathway_cooldown := 7/10, message := "Entered " ++ zoneName s3.zone }
    else process_gates s rest

theorem show_hint_fields (s : GState) (msg : String) :
    (show_hint s msg).zone = s.zone ∧ (show_hint s msg).player = s.player ∧
    (show_hint s msg).npcs = s.npcs ∧ (show_hint s msg).collected = s.collected ∧
    (show_hint s msg).pathway_cooldown = s.pathway_cooldown ∧
    (show_hint s msg).victory = s.victory := by
  unfold show_hint
  split <;> exact ⟨rfl, rfl, rfl, rfl, rfl, rfl⟩

theorem transfer_followers_fields (z : Zone) (s : GState) :
    (transfer_followers z s).player = s.player ∧
    (transfer_followers z s).zone = s.zone ∧
    (transfer_followers z s).collected = s.collected ∧
    (transfer_followers z s).pathway_cooldown = s.pathway_cooldown := by
  unfold transfer_followers
  dsimp only
  split <;> exact ⟨rfl, rfl, rfl, rfl⟩

theorem current_region_tasks_show_hint (s : GState) (msg : String) :
    current_region_tasks (show_hint s msg) = current_region_tasks s := by
  obtain ⟨h1, h2, h3, h4, _, _⟩ := show_hint_fields s msg
  unfold current_region_tasks
  rw [h1, h2, h3, h4]

theorem region_complete_show_hint (s : GState) (msg : String) (z : Zone) :
    region_complete (show_hint s msg) z = region_complete s z := by
  obtain ⟨h1, _, _, _, _, _⟩ := show_hint_fields s msg
  unfold region_complete
  rw [current_region_tasks_show_hint, h1]

/-- A gate overlap is blocked for the current state: either it requires a
key the player lacks, or it leads forward in region order while the
current region's tasks are incomplete. -/
def gate_blocked (s : GState) (g : ZoneGate) : Prop :=
  gate_key_missing s.player g = true ∨
  (zoneIdx s.zone < zoneIdx g.target_zone ∧ region_complete s s.zone = false)

theorem gate_blocked_show_hint (s : GState) (msg : String) (g : ZoneGate) :
    gate_blocked (show_hint s msg) g ↔ gate_blocked s g := by
  obtain ⟨h1, h2, _, _, _, _⟩ := show_hint_fields s msg
  unfold gate_blocked
  rw [h1, h2, region_complete_show_hint]

/-- When every overlapped gate in the list is blocked, the gate loop can
only emit hints: the zone, player, NPCs, collected set, pathway cooldown
and victory flag are unchanged. -/
theorem process_gates_blocked (gates : List ZoneGate) :
    ∀ s : GState,
    (∀ g ∈ gates, collide s.player.rect g.rect = true → gate_blocked s g) →
    (process_gates s gates).zone = s.zone ∧
    (process_gates s gates).player = s.player ∧
    (process_gates s gates).npcs = s.npcs ∧
    (process_gates s gates).collected = s.collected ∧
    (process_gates s gates).pathway_cooldown = s.pathway_cooldown ∧
    (process_gates s gates).victory = s.victory := by
  induction gates with
  | nil => exact fun s _ => ⟨rfl, rfl, rfl, rfl, rfl, rfl⟩
  | cons g rest ih =>
    intro s hall
    unfold process_gates
    dsimp only
    by_cases hcool : 0 < s.pathway_cooldown
    · rw [if_pos hcool]
      exact ⟨rfl, rfl, rfl, rfl, rfl, rfl⟩
    · rw [if_neg hcool]
      by_cases hov : collide s.player.rect g.rect = true
      · rw [if_pos hov]
        have hb := hall g (List.mem_cons_self g rest) hov
        have hrec : ∀ msg : String,
            (process_gates (show_hint s msg) rest).zone = s.zone ∧
            (process_gates (show_hint s msg) rest).player = s.player ∧
            (process_gates (show_hint s msg) rest).npcs = s.npcs ∧
            (process_gates (show_hint s msg) rest).collected = s.collected ∧
            (process_gates (show_hint s msg) rest).pathway_cooldown = s.pathway_cooldown ∧
            (process_gates (show_hint s msg) rest).victory = s.victory := by
          intro msg
          obtain ⟨h1, h2, h3, h4, h5, h6⟩ := show_hint_fields s msg
          have := ih (show_hint s msg) (by
            intro g' hg' hc
            rw [gate_blocked_show_hint]
            exact hall g' (List.mem_cons_of_mem g hg') (by rw [h2] at hc; exact hc))
          exact ⟨this.1.trans h1, this.2.1.trans h2, this.2.2.1.trans h3,
            this.2.2.2.1.trans h4, this.2.2.2.2.1.trans h5, this.2.2.2.2.2.trans h6⟩
        by_cases hkm : gate_key_missing s.player g = true
        · rw [if_pos hkm]
          exact hrec _
        · have hb2 : zoneIdx s.zone < zoneIdx g.target_zone ∧
              region_complete s s.zone = false := by
            rcases hb with hb | hb
            · exact absurd hb hkm
            · exact hb
          rw [if_neg hkm,
            if_pos (show (decide (zoneIdx s.zone < zoneIdx g.target_zone) &&
              !region_complete s s.zone) = true by simp [hb2.1, hb2.2])]
          exact hrec _
      · rw [if_neg hov]
        exact ih s (fun g' hg' hc => hall g' (List.mem_cons_of_mem g hg') hc)

/-- When the gate loop reaches an overlapped gate whose key requirement
is satisfied and whose region-order check passes, it performs the
transition: new zone, player moved to the gate's spawn, cooldown reset
to 0.7 s. -/
theorem process_gates_transition (gates : List ZoneGate) (s : GState) (gate : ZoneGate)
    (hmem : gate ∈ gates)
    (hcool : s.pathway_cooldown ≤ 0)
    (hov : collide s.player.rect gate.rect = true)
    (huniq : ∀ g' ∈ gates, collide s.player.rect g'.rect = true → g' = gate)
    (hkey : gate_key_missing s.player gate = false)
    (horder : ¬(zoneIdx s.zone < zoneIdx gate.target_zone) ∨
      region_complete s s.zone = true)
    (hharbor : gate.target_zone = Zone.Harbor →
      300 ≤ gate.spawn.2 + s.player.rect.h / 2) :
    (process_gates s gates).zone = gate.target_zone ∧
    (process_gates s gates).player.rect =
      { s.player.rect with x := gate.spawn.1, y := gate.spawn.2 } ∧
    (process_gates s gates).pathway_cooldown = 7/10 := by
  induction gates with
  | nil => cases hmem
  | cons g rest ih =>
    unfold process_gates
    dsimp only
    rw [if_neg (not_lt.mpr hcool)]
    by_cases hovg : collide s.player.rect g.rect = true
    · have hgg : g = gate := huniq g (List.mem_cons_self g rest) hovg
      subst hgg
      rw [if_pos hovg, if_neg (by simp [hkey]),
        if_neg (show ¬((decide (zoneIdx s.zone < zoneIdx g.target_zone) &&
            !region_complete s s.zone) = true) by
          rcases horder with h | h
          · simp [h]
          · simp [h])]
      obtain ⟨hp, hz, _, _⟩ := transfer_followers_fields g.target_zone s
      rw [hp]
      have hcond : (decide (g.target_zone = Zone.Harbor) &&
          decide ((⟨g.spawn.1, g.spawn.2, s.player.rect.w, s.player.rect.h⟩ : Rect).centery < 300)) = false := by
        by_cases hH : g.target_zone = Zone.Harbor
        · have h300 := hharbor hH
          have hc : ¬((⟨g.spawn.1, g.spawn.2, s.player.rect.w, s.player.rect.h⟩ : Rect).centery < 300) := by
            unfold Rect.centery
            dsimp only
            omega
          simp [hc]
        · simp [hH]
      rw [if_neg (by simp [hcond])]
      exact ⟨rfl, rfl, rfl⟩
    · rw [if_neg hovg]
      have hmem' : gate ∈ rest := by
        rcases List.mem_cons.mp hmem with rfl | h
        · exact absurd hovg (by rw [hov]; simp)
        · exact h
      exact ih hmem' (fun g' hg' hc => huniq g' (List.mem_cons_of_mem g hg') hc)

/-- Claim C2. For a frame in which the player overlaps the trigger
rectangle of gate `gate` (and no other gate) with the 0.7 s transition
cooldown elapsed: a required key the player lacks means the zone never
changes; a target later in region order with the current region's tasks
incomplete means the zone never changes; otherwise the gate loop switches
the zone exactly once to the gate's target, moves the player's rect to
the gate's configured spawn point, and resets the cooldown to 0.7 s.
The hypothesis `hharbor` states that a Harbor-bound spawn is not inside
the water strip (`centery ≥ 300`); it holds for the game's only
Harbor-bound gate, whose spawn (500, 400) gives centery 416, so the
special-case fix-up of `Game.update` never moves the spawned player. -/
theorem gate_transition_spec (gates : List ZoneGate) (s : GState) (gate : ZoneGate)
    (hmem : gate ∈ gates)
    (hov : collide s.player.rect gate.rect = true)
    (hcool : s.pathway_cooldown ≤ 0)
    (huniq : ∀ g' ∈ gates, collide s.player.rect g'.rect = true → g' = gate)
    (hharbor : gate.target_zone = Zone.Harbor →
      300 ≤ gate.spawn.2 + s.player.rect.h / 2) :
    (gate_key_missing s.player gate = true →
      (process_gates s gates).zone = s.zone) ∧
    (gate_key_missing s.player gate = false →
      zoneIdx s.zone < zoneIdx gate.target_zone →
      region_complete s s.zone = false →
      (process_gates s gates).zone = s.zone) ∧
    (gate_key_missing s.player gate = false →
      (¬(zoneIdx s.zone < zoneIdx gate.target_zone) ∨
        region_complete s s.zone = true) →
      (process_gates s gates).zone = gate.target_zone ∧
      (process_gates s gates).player.rect =
        { s.player.rect with x := gate.spawn.1, y := gate.spawn.2 } ∧
      (process_gates s gates).pathway_cooldown = 7/10) := by
  refine ⟨?_, ?_, ?_⟩
  · intro hkm
    exact (process_gates_blocked gates s (by
      intro g' hg' hc
      rw [huniq g' hg' hc]
      exact Or.inl hkm)).1
  · intro hkm hfwd hinc
    exact (process_gates_blocked gates s (by
      intro g' hg' hc
      rw [huniq g' hg' hc]
      exact Or.inr ⟨hfwd, hinc⟩)).1
  · intro hkm horder
    exact process_gates_transition gates s gate hmem hcool hov huniq hkm horder hharbor

/-- The gate lists of `build_zone_data` (`levels.py` lines 78, 90-93,
112-115, 143-145). -/
def build_zone_gates : Zone → List ZoneGate
  | .Ground => [⟨⟨52, 84, 54, 92⟩, .Estate, (1060, 620), some .jail_key⟩]
  | .Estate => [⟨⟨1082, 620, 56, 56⟩, .Ground, (100, 140), none⟩,
                ⟨⟨80, 620, 60, 60⟩, .Tunnels, (1040, 600), some .cave_key⟩]
  | .Tunnels => [⟨⟨1082, 620, 56, 56⟩, .Estate, (120, 620), none⟩,
                 ⟨⟨70, 80, 80, 80⟩, .Harbor, (500, 400), some .boat_key⟩]
  | .Harbor => [⟨⟨1080, 620, 60, 60⟩, .Tunnels, (160, 140), none⟩]

/-- The Ground-to-Estate gate of the game. -/
def groundGate : ZoneGate := ⟨⟨52, 84, 54, 92⟩, .Estate, (1060, 620), some .jail_key⟩

/-- A Ground state with the region tasks complete, the jail key held and
the player standing in the Ground gate. -/
def gateTestState : GState :=
  { zone := .Ground
    player := { samplePlayer with
      rect := ⟨60, 100, 22, 32⟩
      keys := ⟨true, false, false⟩
      has_gun := true }
    npcs := []
    collected := [ItemId.clue .Ground]
    pathway_cooldown := 0
    pathway_hint_cooldown := 0
    message := ""
    message_time := 0
    victory := false }

/-- Witness for the C2 theorem: the game's Ground gate with the jail key
held and the Ground tasks complete. -/
theorem gate_transition_spec_witness :
    (gate_key_missing gateTestState.player groundGate = true →
      (process_gates gateTestState (build_zone_gates .Ground)).zone = gateTestState.zone) ∧
    (gate_key_missing gateTestState.player groundGate = false →
      zoneIdx gateTestState.zone < zoneIdx groundGate.target_zone →
      region_complete gateTestState gateTestState.zone = false →
      (process_gates gateTestState (build_zone_gates .Ground)).zone = gateTestState.zone) ∧
    (gate_key_missing gateTestState.player groundGate = false →
      (¬(zoneIdx gateTestState.zone < zoneIdx groundGate.target_zone) ∨
        region_complete gateTestState gateTestState.zone = true) →
      (process_gates gateTestState (build_zone_gates .Ground)).zone =
        groundGate.target_zone ∧
      (process_gates gateTestState (build_zone_gates .Ground)).player.rect =
        { gateTestState.player.rect with x := groundGate.spawn.1, y := groundGate.spawn.2 } ∧
      (process_gates gateTestState (build_zone_gates .Ground)).pathway_cooldown = 7/10) :=
  gate_transition_spec (build_zone_gates .Ground) gateTestState groundGate
    (by decide)
    (by decide)
    (by norm_num [gateTestState])
    (by
      intro g' hg' _
      have : g' = groundGate := by
        simpa [build_zone_gates, groundGate] using hg'
      exact this)
    (by intro h; exact absurd h (by decide))

/-- The per-zone item rectangles of `self.items` (`game.py`,
`randomize_spawns` / `levels.py`, `build_items`): an optional gun, a list
of ammo boxes, an optional clue, and the zone's optional key rects. -/
structure ZoneItems where
  gun : Option Rect
  ammo : List Rect
  clue : Option Rect
  jail_key : Option Rect
  cave_key : Option Rect
  boat_key : Option Rect
deriving DecidableEq

def ZoneItems.key_rect (items : ZoneItems) : Key → Option Rect
  | .jail_key => items.jail_key
  | .cave_key => items.cave_key
  | .boat_key => items.boat_key

/-- `build_items()` (`levels.py` lines 172-193), the initial layout. -/
def build_items : Zone → ZoneItems
  | .Ground => ⟨some ⟨200, 550, 24, 12⟩, [⟨300, 200, 16, 10⟩, ⟨800, 500, 16, 10⟩],
      some ⟨400, 300, 20, 14⟩, some ⟨500, 400, 18, 12⟩, none, none⟩
  | .Estate => ⟨none, [⟨300, 350, 16, 10⟩], some ⟨250, 250, 20, 14⟩,
      none, some ⟨700, 400, 18, 12⟩, none⟩
  | .Tunnels => ⟨none, [⟨600, 350, 16, 10⟩, ⟨300, 500, 16, 10⟩],
      some ⟨500, 200, 20, 14⟩, none, none, some ⟨800, 200, 18, 12⟩⟩
  | .Harbor => ⟨none, [], none, none, none, none⟩

/-- The gun branch of `Game.interact` (`game.py` lines 510-515). The
`Bool` component is the `collected_anything` flag. -/
def interact_gun (p : Rect) (items : ZoneItems) (sb : GState × Bool) : GState × Bool :=
  match items.gun with
  | some r =>
    if collide p r && decide (ItemId.gun ∉ sb.1.collected) then
      ({ sb.1 with
         collected := addId ItemId.gun sb.1.collected
         player := { sb.1.player with has_gun := true, ammo := sb.1.player.ammo + 20 }
         message := "You found a pistol with 20 ammo." }, true)
    else sb
  | none => sb

/-- The ammo loop of `Game.interact` (`game.py` lines 517-523); the
composite identifier of the box at position `idx` is
`ammo_<zone>_<idx>`. -/
def interact_ammo (p : Rect) (z : Zone) : List Rect → Nat → GState × Bool → GState × Bool
  | [], _, sb => sb
  | box :: rest, idx, sb =>
    let sb' :=
      if collide p box && decide (ItemId.ammo z idx ∉ sb.1.collected) then
        ({ sb.1 with
           collected := addId (ItemId.ammo z idx) sb.1.collected
           player := { sb.1.player with ammo := sb.1.player.ammo + 12 }
           message := "Picked up ammo (+12)." }, true)
      else sb
    interact_ammo p z rest (idx + 1) sb'

/-- The clue branch of `Game.interact` (`game.py` lines 525-531). -/
def interact_clue (p : Rect) (z : Zone) (items : ZoneItems) (sb : GState × Bool) :
    GState × Bool :=
  match items.clue with
  | some r =>
    if collide p r && decide (ItemId.clue z ∉ sb.1.collected) then
      let clues' := sb.1.player.clues + 1
      ({ sb.1 with
         collected := addId (ItemId.clue z) sb.1.collected
         player := { sb.1.player with clues := clues' }
         message := "Clue found (" ++ toString clues' ++ "/3)." }, true)
    else sb
  | none => sb

/-- One key iteration of `Game.interact` (`game.py` lines 533-537): keys
are gated by the player's key flag, not by the collected set. -/
def interact_key (p : Rect) (k : Key) (items : ZoneItems) (sb : GState × Bool) :
    GState × Bool :=
  match items.key_rect k with
  | some r =>
    if collide p r && !(sb.1.player.keys.get k) then
      ({ sb.1 with
         player := { sb.1.player with keys := sb.1.player.keys.set_true k }
         message := "Collected " ++ keySpaced k ++ "." }, true)
    else sb
  | none => sb

/-- The NPC loop of `Game.interact` (`game.py` lines 539-543): an NPC of
the current zone that is neither following nor rescued starts following
when the player overlaps its rect inflated by (24, 24). -/
def interact_npc_list (p : Rect) (z : Zone) : List NPCS → List NPCS × Bool
  | [] => ([], false)
  | n :: rest =>
    let r := interact_npc_list p z rest
    if decide (n.zone = z) && !n.following && !n.rescued &&
        collide p (n.rect.inflate 24 24) then
      ({ n with following := true } :: r.1, true)
    else (n :: r.1, r.2)

def interact_npcs (p : Rect) (z : Zone) (sb : GState × Bool) : GState × Bool :=
  let r := interact_npc_list p z sb.1.npcs
  if r.2 then
    ({ sb.1 with npcs := r.1, message := "Survivor is now following you." }, sb.2 || r.2)
  else ({ sb.1 with npcs := r.1 }, sb.2 || r.2)

/-- The tail of `Game.interact` (`game.py` lines 545-547): arm the
2-second message timer when anything was collected. -/
def interact_finish (sb : GState × Bool) : GState :=
  if sb.2 then { sb.1 with message_time := 2 } else sb.1

/-- `Game.interact()` (`game.py` lines 505-547): the gun, ammo, clue,
key and NPC branches in source order, then the message-timer tail. -/
def interact (items : Zone → ZoneItems) (s : GState) : GState :=
  let zi := items s.zone
  let p := s.player.rect
  interact_finish
    (interact_npcs p s.zone
      (interact_key p .boat_key zi
        (interact_key p .cave_key zi
          (interact_key p .jail_key zi
            (interact_clue p s.zone zi
              (interact_ammo p s.zone zi.ammo 0
                (interact_gun p zi (s, false))))))))

theorem mem_addId (a b : ItemId) (l : List ItemId) :
    a ∈ addId b l ↔ a = b ∨ a ∈ l := by
  unfold addId
  split
  · next h =>
    constructor
    · exact Or.inr
    · rintro (rfl | h2)
      · exact h
      · exact h2
  · next h => exact List.mem_cons

theorem interact_gun_collected (p : Rect) (zi : ZoneItems) (sb : GState × Bool)
    (x : ItemId) :
    x ∈ (interact_gun p zi sb).1.collected ↔
      x ∈ sb.1.collected ∨
        (x = ItemId.gun ∧ ∃ r, zi.gun = some r ∧ collide p r = true) := by
  unfold interact_gun
  cases hg : zi.gun with
  | none => simp
  | some r =>
    dsimp only
    by_cases hc : (collide p r && decide (ItemId.gun ∉ sb.1.collected)) = true
    · rw [if_pos hc]
      dsimp only
      rw [mem_addId]
      simp only [Bool.and_eq_true, decide_eq_true_iff] at hc
      constructor
      · rintro (rfl | h)
        · exact Or.inr ⟨rfl, r, rfl, hc.1⟩
        · exact Or.inl h
      · rintro (h | ⟨rfl, r', hr', hcol⟩)
        · exact Or.inr h
        · exact Or.inl rfl
    · rw [if_neg hc]
      simp only [Bool.and_eq_true, decide_eq_true_iff, not_and, not_not] at hc
      constructor
      · exact Or.inl
      · rintro (h | ⟨rfl, r', hr', hcol⟩)
        · exact h
        · rw [Option.some_inj] at hr'
          subst hr'
          exact hc hcol
  
theorem interact_gun_id (p : Rect) (zi : ZoneItems) (sb : GState × Bool)
    (h : ItemId.gun ∈ sb.1.collected) : interact_gun p zi sb = sb := by
  unfold interact_gun
  cases hg : zi.gun with
  | none => rfl
  | some r =>
    dsimp only
    rw [if_neg (by simp [h])]

theorem interact_clue_collected (p : Rect) (z : Zone) (zi : ZoneItems)
    (sb : GState × Bool) (x : ItemId) :
    x ∈ (interact_clue p z zi sb).1.collected ↔
      x ∈ sb.1.collected ∨
        (x = ItemId.clue z ∧ ∃ r, zi.clue = some r ∧ collide p r = true) := by
  unfold interact_clue
  cases hg : zi.clue with
  | none => simp
  | some r =>
    dsimp only
    by_cases hc : (collide p r && decide (ItemId.clue z ∉ sb.1.collected)) = true
    · rw [if_pos hc]
      dsimp only
      rw [mem_addId]
      simp only [Bool.and_eq_true, decide_eq_true_iff] at hc
      constructor
      · rintro (rfl | h)
        · exact Or.inr ⟨rfl, r, rfl, hc.1⟩
        · exact Or.inl h
      · rintro (h | ⟨rfl, r', hr', hcol⟩)
        · exact Or.inr h
        · exact Or.inl rfl
    · rw [if_neg hc]
      simp only [Bool.and_eq_true, decide_eq_true_iff, not_and, not_not] at hc
      constructor
      · exact Or.inl
      · rintro (h | ⟨rfl, r', hr', hcol⟩)
        · exact h
        · rw [Option.some_inj] at hr'
          subst hr'
          exact hc hcol

theorem interact_clue_id (p : Rect) (z : Zone) (zi : ZoneItems) (sb : GState × Bool)
    (h : ItemId.clue z ∈ sb.1.collected) : interact_clue p z zi sb = sb := by
  unfold interact_clue
  cases hg : zi.clue with
  | none => rfl
  | some r =>
    dsimp only
    rw [if_neg (by simp [h])]

theorem interact_ammo_collected (p : Rect) (z : Zone) (boxes : List Rect) :
    ∀ (idx : Nat) (sb : GState × Bool) (x : ItemId),
    x ∈ (interact_ammo p z boxes idx sb).1.collected ↔
      x ∈ sb.1.collected ∨
        ∃ j r, boxes.get? j = some r ∧ x = ItemId.ammo z (idx + j) ∧
          collide p r = true := by
  induction boxes with
  | nil =>
    intro idx sb x
    simp [interact_ammo]
  | cons b rest ih =>
    intro idx sb x
    unfold interact_ammo
    dsimp only
    rw [ih]
    by_cases hc : (collide p b && decide (ItemId.ammo z idx ∉ sb.1.collected)) = true
    · rw [if_pos hc]
      dsimp only
      rw [mem_addId]
      simp only [Bool.and_eq_true, decide_eq_true_iff] at hc
      constructor
      · rintro ((rfl | h) | ⟨j, r, hj, hx, hcol⟩)
        · exact Or.inr ⟨0, b, rfl, by rw [Nat.add_zero], hc.1⟩
        · exact Or.inl h
        · exact Or.inr ⟨j + 1, r, by simpa using hj,
            by rw [hx, show idx + 1 + j = idx + (j + 1) from by omega], hcol⟩
      · rintro (h | ⟨j, r, hj, hx, hcol⟩)
        · exact Or.inl (Or.inr h)
        · cases j with
          | zero =>
            rw [List.get?_cons_zero, Option.some_inj] at hj
            subst hj
            exact Or.inl (Or.inl (by rw [hx, Nat.add_zero]))
          | succ j' =>
            rw [List.get?_cons_succ] at hj
            exact Or.inr ⟨j', r, hj,
              by rw [hx, show idx + (j' + 1) = idx + 1 + j' from by omega], hcol⟩
    · rw [if_neg hc]
      simp only [Bool.and_eq_true, decide_eq_true_iff, not_and, not_not] at hc
      constructor
      · rintro (h | ⟨j, r, hj, hx, hcol⟩)
        · exact Or.inl h
        · exact Or.inr ⟨j + 1, r, by simpa using hj,
            by rw [hx, show idx + 1 + j = idx + (j + 1) from by omega], hcol⟩
      · rintro (h | ⟨j, r, hj, hx, hcol⟩)
        · exact Or.inl h
        · cases j with
          | zero =>
            rw [List.get?_cons_zero, Option.some_inj] at hj
            subst hj
            exact Or.inl (by rw [hx, Nat.add_zero]; exact hc hcol)
          | succ j' =>
            rw [List.get?_cons_succ] at hj
            exact Or.inr ⟨j', r, hj,
              by rw [hx, show idx + (j' + 1) = idx + 1 + j' from by omega], hcol⟩

theorem interact_ammo_id (p : Rect) (z : Zone) (boxes : List Rect) :
    ∀ (idx : Nat) (sb : GState × Bool),
    (∀ j, j < boxes.length → ItemId.ammo z (idx + j) ∈ sb.1.collected) →
    interact_ammo p z boxes idx sb = sb := by
  induction boxes with
  | nil => intro idx sb _; rfl
  | cons b rest ih =>
    intro idx sb h
    unfold interact_ammo
    dsimp only
    rw [if_neg (by
      have h0 := h 0 (Nat.succ_pos _)
      rw [Nat.add_zero] at h0
      simp [h0])]
    exact ih (idx + 1) sb (by
      intro j hj
      have := h (j + 1) (by simpa using Nat.succ_lt_succ hj)
      rwa [show idx + (j + 1) = idx + 1 + j by omega] at this)

theorem interact_key_proj (p : Rect) (k : Key) (zi : ZoneItems) (sb : GState × Bool) :
    (interact_key p k zi sb).1.collected = sb.1.collected ∧
    (interact_key p k zi sb).1.player.ammo = sb.1.player.ammo ∧
    (interact_key p k zi sb).1.player.clues = sb.1.player.clues ∧
    (interact_key p k zi sb).1.player.has_gun = sb.1.player.has_gun := by
  unfold interact_key
  cases hk : zi.key_rect k with
  | none => exact ⟨rfl, rfl, rfl, rfl⟩
  | some r =>
    dsimp only
    split <;> exact ⟨rfl, rfl, rfl, rfl⟩

theorem interact_npcs_proj (p : Rect) (z : Zone) (sb : GState × Bool) :
    (interact_npcs p z sb).1.collected = sb.1.collected ∧
    (interact_npcs p z sb).1.player.ammo = sb.1.player.ammo ∧
    (interact_npcs p z sb).1.player.clues = sb.1.player.clues ∧
    (interact_npcs p z sb).1.player.has_gun = sb.1.player.has_gun := by
  unfold interact_npcs
  dsimp only
  split <;> exact ⟨rfl, rfl, rfl, rfl⟩

theorem interact_finish_proj (sb : GState × Bool) :
    (interact_finish sb).collected = sb.1.collected ∧
    (interact_finish sb).player.ammo = sb.1.player.ammo ∧
    (interact_finish sb).player.clues = sb.1.player.clues ∧
    (interact_finish sb).player.has_gun = sb.1.player.has_gun := by
  unfold interact_finish
  split <;> exact ⟨rfl, rfl, rfl, rfl⟩

/-- The key, NPC and message-timer steps of `interact` never touch the
collected set, the ammo count, the clue count, or the gun flag. -/
theorem interact_tail_proj (p : Rect) (z : Zone) (zi : ZoneItems) (sb : GState × Bool) :
    (interact_finish (interact_npcs p z (interact_key p .boat_key zi
      (interact_key p .cave_key zi (interact_key p .jail_key zi sb))))).collected =
      sb.1.collected ∧
    (interact_finish (interact_npcs p z (interact_key p .boat_key zi
      (interact_key p .cave_key zi (interact_key p .jail_key zi sb))))).player.ammo =
      sb.1.player.ammo ∧
    (interact_finish (interact_npcs p z (interact_key p .boat_key zi
      (interact_key p .cave_key zi (interact_key p .jail_key zi sb))))).player.clues =
      sb.1.player.clues ∧
    (interact_finish (interact_npcs p z (interact_key p .boat_key zi
      (interact_key p .cave_key zi (interact_key p .jail_key zi sb))))).player.has_gun =
      sb.1.player.has_gun := by
  obtain ⟨j1, j2, j3, j4⟩ := interact_key_proj p .jail_key zi sb
  obtain ⟨c1, c2, c3, c4⟩ := interact_key_proj p .cave_key zi (interact_key p .jail_key zi sb)
  obtain ⟨b1, b2, b3, b4⟩ := interact_key_proj p .boat_key zi
    (interact_key p .cave_key zi (interact_key p .jail_key zi sb))
  obtain ⟨n1, n2, n3, n4⟩ := interact_npcs_proj p z (interact_key p .boat_key zi
    (interact_key p .cave_key zi (interact_key p .jail_key zi sb)))
  obtain ⟨f1, f2, f3, f4⟩ := interact_finish_proj (interact_npcs p z
    (interact_key p .boat_key zi (interact_key p .cave_key zi (interact_key p .jail_key zi sb))))
  exact ⟨f1.trans (n1.trans (b1.trans (c1.trans j1))),
         f2.trans (n2.trans (b2.trans (c2.trans j2))),
         f3.trans (n3.trans (b3.trans (c3.trans j3))),
         f4.trans (n4.trans (b4.trans (c4.trans j4)))⟩

/-- Claim C9. Item pickup via `interact` is idempotent: when the gun, all
of the zone's ammo boxes and the zone's clue already have their composite
identifiers in the collected set, a further `interact` call changes
neither the collected set nor the ammo count, clue count or gun flag; and
an id-gated item becomes (or stays) collected after an `interact` call
exactly when it already was collected or the player overlaps its
rectangle — that is, it is collectable iff its identifier is absent from
the collected set. -/
theorem interact_pickup_spec (items : Zone → ZoneItems) (s : GState) :
    ((ItemId.gun ∈ s.collected ∧
      (∀ j, j < (items s.zone).ammo.length → ItemId.ammo s.zone j ∈ s.collected) ∧
      ItemId.clue s.zone ∈ s.collected) →
      ((interact items s).collected = s.collected ∧
       (interact items s).player.ammo = s.player.ammo ∧
       (interact items s).player.clues = s.player.clues ∧
       (interact items s).player.has_gun = s.player.has_gun)) ∧
    (∀ r, (items s.zone).gun = some r →
      (ItemId.gun ∈ (interact items s).collected ↔
        ItemId.gun ∈ s.collected ∨ collide s.player.rect r = true)) ∧
    (∀ r, (items s.zone).clue = some r →
      (ItemId.clue s.zone ∈ (interact items s).collected ↔
        ItemId.clue s.zone ∈ s.collected ∨ collide s.player.rect r = true)) ∧
    (∀ j r, (items s.zone).ammo.get? j = some r →
      (ItemId.ammo s.zone j ∈ (interact items s).collected ↔
        ItemId.ammo s.zone j ∈ s.collected ∨ collide s.player.rect r = true)) := by
  have hcoll : ∀ x : ItemId, x ∈ (interact items s).collected ↔
      x ∈ (interact_clue s.player.rect s.zone (items s.zone)
            (interact_ammo s.player.rect s.zone (items s.zone).ammo 0
              (interact_gun s.player.rect (items s.zone) (s, false)))).1.collected := by
    intro x
    unfold interact
    dsimp only
    rw [(interact_tail_proj s.player.rect s.zone (items s.zone) _).1]
  refine ⟨?_, ?_, ?_, ?_⟩
  · rintro ⟨hgun, hammo, hclue⟩
    have hg1 : interact_gun s.player.rect (items s.zone) (s, false) = (s, false) :=
      interact_gun_id _ _ _ hgun
    have ha1 : interact_ammo s.player.rect s.zone (items s.zone).ammo 0 (s, false) =
        (s, false) :=
      interact_ammo_id _ _ _ 0 _ (by
        intro j hj
        rw [Nat.zero_add]
        exact hammo j hj)
    have hc1 : interact_clue s.player.rect s.zone (items s.zone) (s, false) = (s, false) :=
      interact_clue_id _ _ _ _ hclue
    unfold interact
    dsimp only
    rw [hg1, ha1, hc1]
    exact interact_tail_proj s.player.rect s.zone (items s.zone) (s, false)
  · intro r hr
    rw [hcoll, interact_clue_collected, interact_ammo_collected, interact_gun_collected]
    dsimp only
    constructor
    · rintro (((h | ⟨_, r', hr', hcol⟩) | ⟨j, r', hj, hx, hcol⟩) | ⟨hx, _⟩)
      · exact Or.inl h
      · rw [hr, Option.some_inj] at hr'
        subst hr'
        exact Or.inr hcol
      · simp at hx
      · simp at hx
    · rintro (h | hcol)
      · exact Or.inl (Or.inl (Or.inl h))
      · exact Or.inl (Or.inl (Or.inr ⟨rfl, r, hr, hcol⟩))
  · intro r hr
    rw [hcoll, interact_clue_collected, interact_ammo_collected, interact_gun_collected]
    dsimp only
    constructor
    · rintro (((h | ⟨hx, _⟩) | ⟨j, r', hj, hx, hcol⟩) | ⟨_, r', hr', hcol⟩)
      · exact Or.inl h
      · simp at hx
      · simp at hx
      · rw [hr, Option.some_inj] at hr'
        subst hr'
        exact Or.inr hcol
    · rintro (h | hcol)
      · exact Or.inl (Or.inl (Or.inl h))
      · exact Or.inr ⟨rfl, r, hr, hcol⟩
  · intro j r hr
    rw [hcoll, interact_clue_collected, interact_ammo_collected, interact_gun_collected]
    dsimp only
    constructor
    · rintro (((h | ⟨hx, _⟩) | ⟨j', r', hj', hx, hcol⟩) | ⟨hx, _⟩)
      · exact Or.inl h
      · simp at hx
      · simp only [ItemId.ammo.injEq, Nat.zero_add] at hx
        rw [hx.2] at hr
        rw [hr, Option.some_inj] at hj'
        subst hj'
        exact Or.inr hcol
      · simp at hx
    · rintro (h | hcol)
      · exact Or.inl (Or.inl (Or.inl h))
      · exact Or.inl (Or.inr ⟨j, r, hr, by rw [Nat.zero_add], hcol⟩)

/-- A Ground state with nothing collected and the player standing on the
gun rect of the initial item layout. -/
def interactTestState : GState :=
  { zone := .Ground
    player := { samplePlayer with rect := ⟨200, 545, 22, 32⟩ }
    npcs := []
    collected := []
    pathway_cooldown := 0
    pathway_hint_cooldown := 0
    message := ""
    message_time := 0
    victory := false }

/-- Witness for the C9 theorem at the game's initial Ground item layout. -/
theorem interact_pickup_spec_witness :
    ((ItemId.gun ∈ interactTestState.collected ∧
      (∀ j, j < (build_items interactTestState.zone).ammo.length →
        ItemId.ammo interactTestState.zone j ∈ interactTestState.collected) ∧
      ItemId.clue interactTestState.zone ∈ interactTestState.collected) →
      ((interact build_items interactTestState).collected = interactTestState.collected ∧
       (interact build_items interactTestState).player.ammo =
         interactTestState.player.ammo ∧
       (interact build_items interactTestState).player.clues =
         interactTestState.player.clues ∧
       (interact build_items interactTestState).player.has_gun =
         interactTestState.player.has_gun)) ∧
    (∀ r, (build_items interactTestState.zone).gun = some r →
      (ItemId.gun ∈ (interact build_items interactTestState).collected ↔
        ItemId.gun ∈ interactTestState.collected ∨
          collide interactTestState.player.rect r = true)) ∧
    (∀ r, (build_items interactTestState.zone).clue = some r →
      (ItemId.clue interactTestState.zone ∈
          (interact build_items interactTestState).collected ↔
        ItemId.clue interactTestState.zone ∈ interactTestState.collected ∨
          collide interactTestState.player.rect r = true)) ∧
    (∀ j r, (build_items interactTestState.zone).ammo.get? j = some r →
      (ItemId.ammo interactTestState.zone j ∈
          (interact build_items interactTestState).collected ↔
        ItemId.ammo interactTestState.zone j ∈ interactTestState.collected ∨
          collide interactTestState.player.rect r = true)) :=
  interact_pickup_spec build_items interactTestState
